import Mathlib

/-!
Shallow embedding of the server core of `src/src/ringserver.c` (ringserver).

The definitions below are translated from the C source: the IP policy
matcher `MatchIP`, the per-source connection counter `ClientIPCount`, the
admission policy of `ListenThread`, the per-client statistics update
`CalcStats` (percent lag and tx/rx rates), the auto-recovery startup logic
of `main`, the shutdown draining of the supervisor loop, and the idle
timeout check.  Machine integers are modelled as `Int`/`Nat`; the C
`double` arithmetic of `CalcStats` is modelled exactly over `ℚ` (the
values reached by the claims are small integers, for which IEEE double
arithmetic is exact), and the C `(int)` cast is truncation toward zero
(`ratTrunc`).
-/

/-- A socket address as consumed by `MatchIP` and `ClientIPCount`:
an IPv4 address (32-bit value), an IPv6 address (16 octets), or an
address of some other family (`AF_UNIX` etc.). -/
inductive SockAddr where
  | v4 (addr : Nat)
  | v6 (octets : List Nat)
  | other
deriving DecidableEq

/-- The network/netmask union of a C `IPNet` entry together with its
family tag: an IPv4 network or an IPv6 network. -/
inductive NetSpec where
  | v4 (network netmask : Nat)
  | v6 (network netmask : List Nat)
deriving DecidableEq

/-- One entry of a policy list (C struct `IPNet`): network spec plus the
optional per-address stream-limit pattern `limitstr`. -/
structure IPNet where
  spec : NetSpec
  limitstr : Option String
deriving DecidableEq

/-- Octet-wise IPv6 match from `MatchIP`: every octet of the address
ANDed with the netmask octet must equal the network octet.  The C code
compares the 16 octets `s6_addr[0] .. s6_addr[15]`; here the three lists
are walked in lockstep (they have length 16 at every call site). -/
def ipv6Match : List Nat → List Nat → List Nat → Bool
  | [], [], [] => true
  | a :: arest, m :: mrest, n :: nrest => ((a &&& m) == n) && ipv6Match arest mrest nrest
  | _, _, _ => false

/-- Whether address `addr` matches the `IPNet` entry `net`, from the loop
body of `MatchIP`: IPv4 against IPv4 by `(addr & mask) == network`, IPv6
against IPv6 octet-wise, and families never match across. -/
def entryMatch (addr : SockAddr) (net : IPNet) : Bool :=
  match addr, net.spec with
  | SockAddr.v4 a, NetSpec.v4 network netmask => (a &&& netmask) == network
  | SockAddr.v6 o, NetSpec.v6 network netmask => ipv6Match o netmask network
  | _, _ => false

/-- The search loop of `MatchIP`: first entry of the list matching the
address, in insertion order. -/
def matchSearch (addr : SockAddr) : List IPNet → Option IPNet
  | [] => none
  | net :: rest => if entryMatch addr net then some net else matchSearch addr rest

/-- C function `MatchIP` (ringserver.c:1204): `none` for an empty list or
an address that is neither IPv4 nor IPv6, otherwise the first matching
entry of the list. -/
def MatchIP (list : List IPNet) (addr : SockAddr) : Option IPNet :=
  match addr with
  | SockAddr.other => none
  | _ => matchSearch addr list

/-- Address comparison of `ClientIPCount` (ringserver.c:1266): same
family and same full address bytes (4 bytes for IPv4, 16 for IPv6);
other families are never counted. -/
def sameAddress (stored query : SockAddr) : Bool :=
  match stored, query with
  | SockAddr.v4 x, SockAddr.v4 y => x == y
  | SockAddr.v6 x, SockAddr.v6 y => x == y
  | _, _ => false

/-- C function `ClientIPCount`: number of connected clients whose stored
address equals the queried address. -/
def ClientIPCount (clients : List SockAddr) (addr : SockAddr) : Nat :=
  (clients.filter (fun stored => sameAddress stored addr)).length

/-- The configuration fields read by the admission code of
`ListenThread`: the three policy lists and the two connection caps
(`maxclientsperip = 0` and `maxclients = 0` mean unlimited). -/
structure AdmissionConfig where
  matchips : List IPNet
  rejectips : List IPNet
  writeips : List IPNet
  maxclientsperip : Nat
  maxclients : Nat
deriving DecidableEq

/-- C macro `RESERVECONNECTIONS` (ringserver.c:60). -/
def RESERVECONNECTIONS : Int := 10

/-- Guard `config.writeips && MatchIP (config.writeips, paddr)` used
twice in `ListenThread`: the write list exists and the source matches it. -/
def onWriteList (cfg : AdmissionConfig) (addr : SockAddr) : Bool :=
  !cfg.writeips.isEmpty && (MatchIP cfg.writeips addr).isSome

/-- Outcome of the admission policy of `ListenThread` for one incoming
connection: which check rejected it, or admission. -/
inductive AdmitResult where
  | rejectedMatch
  | rejectedReject
  | rejectedIPLimit
  | rejectedMaxClients
  | admitted
deriving DecidableEq

/-- The admission policy of `ListenThread` (ringserver.c:896-947), in the
source's order: match list first, reject list second, per-IP cap third
(skipped for write-list sources), global cap with write-list reserve
last. -/
def admitDecision (cfg : AdmissionConfig) (clients : List SockAddr)
    (clientcount : Int) (addr : SockAddr) : AdmitResult :=
  if cfg.matchips ≠ [] ∧ MatchIP cfg.matchips addr = none then
    AdmitResult.rejectedMatch
  else if cfg.rejectips ≠ [] ∧ (MatchIP cfg.rejectips addr).isSome = true then
    AdmitResult.rejectedReject
  else if cfg.maxclientsperip ≠ 0 ∧ onWriteList cfg addr = false ∧
          cfg.maxclientsperip ≤ ClientIPCount clients addr then
    AdmitResult.rejectedIPLimit
  else if cfg.maxclients ≠ 0 ∧ (cfg.maxclients : Int) ≤ clientcount then
    if onWriteList cfg addr = true ∧
        clientcount ≤ (cfg.maxclients : Int) + RESERVECONNECTIONS then
      AdmitResult.admitted
    else
      AdmitResult.rejectedMaxClients
  else
    AdmitResult.admitted

/-- State shared between the listener and the supervisor: the client
list (`param.cthreads`, here just the stored addresses) and the global
client count (`param.clientcount`, a C `int`). -/
structure ServerState where
  clients : List SockAddr
  clientcount : Int
deriving DecidableEq

/-- Events acting on `ServerState`: an incoming connection handled by
`ListenThread`, or the supervisor reaping one CLOSED client unit. -/
inductive ServerEvent where
  | connect (addr : SockAddr)
  | reap (idx : Nat)
deriving DecidableEq

/-- One step of the shared client accounting: an admitted connection is
linked into the list and increments the count (ringserver.c:1082-1096); a
reap unlinks one client and decrements the count only when it is
strictly positive (ringserver.c:664-666). -/
def serverStep (cfg : AdmissionConfig) (s : ServerState) : ServerEvent → ServerState
  | ServerEvent.connect addr =>
      if admitDecision cfg s.clients s.clientcount addr = AdmitResult.admitted then
        { clients := addr :: s.clients, clientcount := s.clientcount + 1 }
      else s
  | ServerEvent.reap idx =>
      if idx < s.clients.length then
        { clients := s.clients.eraseIdx idx,
          clientcount := if 0 < s.clientcount then s.clientcount - 1 else s.clientcount }
      else s

/-- Run a sequence of events from the initial state (no clients,
count 0). -/
def runServer (cfg : AdmissionConfig) (events : List ServerEvent) : ServerState :=
  events.foldl (serverStep cfg) { clients := [], clientcount := 0 }

/-- Ring handle fields read by `CalcStats`: latest/earliest packet
offsets and the ring's maximum offset (C `RingParams`, int64 offsets). -/
structure RingParamsM where
  latestoffset : Int
  earliestoffset : Int
  maxoffset : Int
deriving DecidableEq

/-- A client's reader cursor (C `RingReader`): current packet id and
packet offset.  Only these two fields are read by `CalcStats`. -/
structure RingReader where
  pktid : Nat
  pktoffset : Int
deriving DecidableEq

/-- The C cast `(int)` applied to an exactly-represented quotient:
truncation toward zero of a rational. -/
def ratTrunc (q : ℚ) : Int := Int.tdiv q.num (q.den : Int)

/-- The unwrap step of `CalcStats` (ringserver.c:1142-1150): add the
ring's max offset to an offset that is less than the earliest offset. -/
def unwrap (offset earliest maxoffset : Int) : Int :=
  if offset < earliest then offset + maxoffset else offset

/-- Percent-lag computation of `CalcStats` (ringserver.c:1139-1158),
with the `RINGID_MAXIMUM` bound of the pktid validity test (defined in
ring.h, which is not part of this repository snapshot) taken as the
parameter `ringidMax`.  If the reader is set and its packet id is valid,
the latest and reader offsets are unwrapped and the lag is
`(int)(((latest - reader) / (latest - earliest)) * 100)` over doubles;
otherwise the lag is 0. -/
def percentLag (rp : RingParamsM) (reader : Option RingReader) (ringidMax : Nat) : Int :=
  match reader with
  | some r =>
      if r.pktid ≤ ringidMax then
        ratTrunc
          ((((unwrap rp.latestoffset rp.earliestoffset rp.maxoffset -
              unwrap r.pktoffset rp.earliestoffset rp.maxoffset : Int) : ℚ) /
            ((unwrap rp.latestoffset rp.earliestoffset rp.maxoffset -
              rp.earliestoffset : Int) : ℚ)) * 100)
      else 0
  | none => 0

/-- Modelled from the spec: the unwrapped coordinate of section 4.4,
"adding the ring's max offset to any value less than the ring's earliest
offset". -/
def specUnwrapped (v earliest maxoffset : Int) : Int :=
  if v < earliest then v + maxoffset else v

/-- Modelled from the spec: the percent-lag of section 4.4, reporting
`100 * (latest - reader) / (latest - earliest)` over unwrapped
coordinates, and 0 when the reader has no valid position. -/
def specPercentLag (rp : RingParamsM) (reader : Option RingReader) (ringidMax : Nat) : Int :=
  match reader with
  | some r =>
      if r.pktid ≤ ringidMax then
        ratTrunc
          ((100 * ((specUnwrapped rp.latestoffset rp.earliestoffset rp.maxoffset -
                    specUnwrapped r.pktoffset rp.earliestoffset rp.maxoffset : Int) : ℚ)) /
           ((specUnwrapped rp.latestoffset rp.earliestoffset rp.maxoffset -
             specUnwrapped rp.earliestoffset rp.earliestoffset rp.maxoffset : Int) : ℚ))
      else 0
  | none => 0

/-- Nanoseconds per second (libmseed `NSTMODULUS`; libmseed is an
external dependency, the constant is the standard 10^9). -/
def NSTMODULUS : Int := 1000000000

/-- Unsigned 64-bit subtraction `a - b` as computed in C for operands
below `2^64` (the counters are `uint64_t`). -/
def usub64 (a b : Nat) : Nat := (a + 2 ^ 64 - b) % 2 ^ 64

/-- The rate-relevant fields of a C `ClientInfo`: the rate timestamp
(0 = unset), the two-slot counter arrays `[current, previous]` for
tx/rx packets and bytes, and the derived rates. -/
structure RateState where
  ratetime : Int
  txpackets0 : Nat
  txpackets1 : Nat
  txbytes0 : Nat
  txbytes1 : Nat
  rxpackets0 : Nat
  rxpackets1 : Nat
  rxbytes0 : Nat
  rxbytes1 : Nat
  txpacketrate : ℚ
  txbyterate : ℚ
  rxpacketrate : ℚ
  rxbyterate : ℚ

/-- Elapsed seconds used by `CalcStats` (ringserver.c:1160-1164): 1.0 on
the first call (rate timestamp still 0), otherwise
`(nsnow - ratetime) / NSTMODULUS`. -/
def deltaSec (nsnow ratetime : Int) : ℚ :=
  if ratetime = 0 then 1 else ((nsnow - ratetime : Int) : ℚ) / (NSTMODULUS : ℚ)

/-- Rate section of `CalcStats` (ringserver.c:1160-1192): for each
direction whose current packet counter is positive, set the rates from
the difference between current and history counters divided by the
elapsed seconds, and shift current counters into the history slots;
finally stamp the rate timestamp with the current time. -/
def calcRates (nsnow : Int) (s : RateState) : RateState :=
  let d := deltaSec nsnow s.ratetime
  let s1 :=
    if 0 < s.txpackets0 then
      { s with
        txpacketrate := (usub64 s.txpackets0 s.txpackets1 : ℚ) / d,
        txbyterate := (usub64 s.txbytes0 s.txbytes1 : ℚ) / d,
        txpackets1 := s.txpackets0,
        txbytes1 := s.txbytes0 }
    else s
  let s2 :=
    if 0 < s1.rxpackets0 then
      { s1 with
        rxpacketrate := (usub64 s1.rxpackets0 s1.rxpackets1 : ℚ) / d,
        rxbyterate := (usub64 s1.rxbytes0 s1.rxbytes1 : ℚ) / d,
        rxpackets1 := s1.rxpackets0,
        rxbytes1 := s1.rxbytes0 }
    else s1
  { s2 with ratetime := nsnow }

/-- Thread lifecycle states (C `TDS_*` constants). -/
inductive TDState where
  | spawning
  | active
  | close
  | closing
  | closed
deriving DecidableEq

/-- A server unit of the supervisor (`struct sthread`): listener or
scanner tag, the listening socket for listeners (`ListenPortParams`),
whether a thread record (`td`) is attached, and its lifecycle state. -/
structure ServerUnit where
  isListener : Bool
  socket : Int
  hasTd : Bool
  tdState : TDState
deriving DecidableEq

/-- A client unit of the supervisor (`struct cthread`): lifecycle state
and the client's last-exchange timestamp (nanoseconds). -/
structure ClientUnit where
  tdState : TDState
  lastxchange : Int
deriving DecidableEq

/-- Supervisor-visible shutdown state: the shutdown flag/counter
(`param.shutdownsig`), the tick period in nanoseconds
(`timereq.tv_nsec`), and the two unit lists. -/
structure SupervisorState where
  shutdownsig : Nat
  ticknsec : Nat
  sunits : List ServerUnit
  cunits : List ClientUnit
deriving DecidableEq

/-- Shutdown handling of one server unit (ringserver.c:386-413): a
listener has its listening socket shut down and closed (descriptor set
to -1); any other unit with an attached thread not already CLOSING or
CLOSED is set to CLOSE. -/
def shutdownServerUnit (u : ServerUnit) : ServerUnit :=
  if u.isListener then
    if 0 < u.socket then { u with socket := -1 } else u
  else if u.hasTd ∧ u.tdState ≠ TDState.closing ∧ u.tdState ≠ TDState.closed then
    { u with tdState := TDState.close }
  else u

/-- Shutdown handling of one client unit (ringserver.c:419-431): any
client not already CLOSING or CLOSED is set to CLOSE. -/
def shutdownClientUnit (c : ClientUnit) : ClientUnit :=
  if c.tdState ≠ TDState.closing ∧ c.tdState ≠ TDState.closed then
    { c with tdState := TDState.close }
  else c

/-- The shutdown portion of one supervisor tick (ringserver.c:375-445):
when a shutdown was just requested (`shutdownsig = 1`), advance the flag
to 2, shorten the tick period to 100 ms, close all listener sockets and
request CLOSE of all other units; then, while draining
(`shutdownsig > 1`), exit the loop once the counter reaches 100,
otherwise increment it.  The boolean result is true when the loop exits
through this safety valve. -/
def drainTick (s : SupervisorState) : SupervisorState × Bool :=
  let s' :=
    if s.shutdownsig = 1 then
      { s with
        shutdownsig := 2,
        ticknsec := 100000000,
        sunits := s.sunits.map shutdownServerUnit,
        cunits := s.cunits.map shutdownClientUnit }
    else s
  if 1 < s'.shutdownsig then
    if 100 ≤ s'.shutdownsig then (s', true)
    else ({ s' with shutdownsig := s'.shutdownsig + 1 }, false)
  else (s', false)

/-- Iterate `drainTick` up to a given number of ticks, stopping when the
safety valve fires. -/
def drainTicks : Nat → SupervisorState → SupervisorState × Bool
  | 0, s => (s, false)
  | n + 1, s =>
      match drainTick s with
      | (s', true) => (s', true)
      | (s', false) => drainTicks n s'

/-- Idle-timeout check that the supervisor applies to each live (not
CLOSED) client unit on every tick (ringserver.c:686-699): when a client
timeout is configured and the time since the client's last exchange
exceeds it, a client not already CLOSE, CLOSING or CLOSED is set to
CLOSE. -/
def idleCheck (clienttimeout : Nat) (hpcurtime : Int) (c : ClientUnit) : ClientUnit :=
  if clienttimeout ≠ 0 ∧ (clienttimeout : Int) * NSTMODULUS < hpcurtime - c.lastxchange then
    if c.tdState ≠ TDState.close ∧ c.tdState ≠ TDState.closing ∧
        c.tdState ≠ TDState.closed then
      { c with tdState := TDState.close }
    else c
  else c

/-- The client pass of one supervisor tick, restricted to lifecycle
states (ringserver.c:610-701): CLOSED units are reaped, every other unit
goes through the idle-timeout check. -/
def supervisorIdlePass (clienttimeout : Nat) (hpcurtime : Int)
    (cs : List ClientUnit) : List ClientUnit :=
  (cs.filter (fun c => !(c.tdState == TDState.closed))).map (idleCheck clienttimeout hpcurtime)

/-- Observable actions of the ring startup sequence of `main`
(ringserver.c:212-334). -/
inductive StartupAction where
  | renameToCorrupt
  | renameToVersion (v : Nat)
  | deleteFiles
  | reinit
  | convertV1
  | deleteBackups
deriving DecidableEq

/-- Result of the ring startup sequence: the exit code when startup
fails (`none` = the server proceeds), and the actions performed, in
order. -/
structure StartupResult where
  exitCode : Option Nat
  actions : List StartupAction
deriving DecidableEq

/-- The ring initialisation and auto-recovery logic of `main`
(ringserver.c:212-334), on the happy filesystem path (renames and
unlinks succeed).  Inputs: the `autoRecovery` setting, the result of the
first `RingInitialize` call (`init1`), the result of the second call
performed during recovery (`init2`), and the packet count returned by
`LoadBufferV1` (`loadv1`, negative = loader error).  `convert_version`
is a C `uint16_t`, hence the `% 65536`. -/
def ringStartup (autorecovery : Nat) (init1 init2 loadv1 : Int) : StartupResult :=
  if init1 = 0 then { exitCode := none, actions := [] }
  else if init1 = -2 ∨ autorecovery = 0 then { exitCode := some 1, actions := [] }
  else
    let recovery : Option (List StartupAction × Nat) :=
      if autorecovery = 1 ∧ (init1 = -1 ∨ 0 < init1) then
        if init1 = -1 then some ([StartupAction.renameToCorrupt], 0)
        else some ([StartupAction.renameToVersion init1.toNat], init1.toNat % 65536)
      else if autorecovery = 2 then some ([StartupAction.deleteFiles], 0)
      else none
    match recovery with
    | none => { exitCode := some 1, actions := [] }
    | some (acts, convertVersion) =>
        if init2 ≠ 0 then
          { exitCode := some 1, actions := acts ++ [StartupAction.reinit] }
        else if autorecovery = 1 ∧ 0 < convertVersion then
          if convertVersion = 1 then
            if 0 ≤ loadv1 then
              { exitCode := none,
                actions := acts ++ [StartupAction.reinit, StartupAction.convertV1,
                                    StartupAction.deleteBackups] }
            else
              { exitCode := none,
                actions := acts ++ [StartupAction.reinit, StartupAction.convertV1] }
          else
            { exitCode := some 1, actions := acts ++ [StartupAction.reinit] }
        else
          { exitCode := none, actions := acts ++ [StartupAction.reinit] }

theorem matchSearch_eq_find (addr : SockAddr) (l : List IPNet) :
    matchSearch addr l = l.find? (entryMatch addr) := by
  induction l with
  | nil => rfl
  | cons net rest ih =>
      cases h : entryMatch addr net <;>
        simp [matchSearch, List.find?_cons, h, ih]

theorem ipv6Match_iff_zipWith (a : List Nat) : ∀ (m n : List Nat),
    a.length = m.length → a.length = n.length →
    (ipv6Match a m n = true ↔ List.zipWith (fun x y => x &&& y) a m = n) := by
  induction a with
  | nil =>
      intro m n h1 h2
      cases m <;> cases n <;> simp_all [ipv6Match]
  | cons x xr ih =>
      intro m n h1 h2
      cases m with
      | nil => simp at h1
      | cons y yr =>
          cases n with
          | nil => simp at h2
          | cons z zr =>
              have h1' : xr.length = yr.length := by simpa using h1
              have h2' : xr.length = zr.length := by simpa using h2
              simp [ipv6Match, Bool.and_eq_true, beq_iff_eq, ih yr zr h1' h2',
                    List.zipWith]

/-- Claim C9: the IP matcher returns the first entry in insertion order
that matches, or none; an IPv4 address matches an IPv4 entry exactly
when `(addr & mask) == network`; an IPv6 address matches an IPv6 entry
exactly when the octet-wise AND of the address with the mask equals the
network in all 16 bytes; entries of a different family never match; and
addresses of a family other than IPv4 or IPv6 match nothing. -/
theorem claim_C9 :
    (∀ (l : List IPNet) (a : Nat),
        MatchIP l (SockAddr.v4 a) = l.find? (entryMatch (SockAddr.v4 a))) ∧
    (∀ (l : List IPNet) (o : List Nat),
        MatchIP l (SockAddr.v6 o) = l.find? (entryMatch (SockAddr.v6 o))) ∧
    (∀ (l : List IPNet), MatchIP l SockAddr.other = none) ∧
    (∀ (a network netmask : Nat) (ls : Option String),
        entryMatch (SockAddr.v4 a) { spec := NetSpec.v4 network netmask, limitstr := ls } = true ↔
          a &&& netmask = network) ∧
    (∀ (o network netmask : List Nat) (ls : Option String),
        o.length = 16 → netmask.length = 16 → network.length = 16 →
        (entryMatch (SockAddr.v6 o) { spec := NetSpec.v6 network netmask, limitstr := ls } = true ↔
          List.zipWith (fun x y => x &&& y) o netmask = network)) ∧
    (∀ (a : Nat) (network netmask : List Nat) (ls : Option String),
        entryMatch (SockAddr.v4 a) { spec := NetSpec.v6 network netmask, limitstr := ls } = false) ∧
    (∀ (o : List Nat) (network netmask : Nat) (ls : Option String),
        entryMatch (SockAddr.v6 o) { spec := NetSpec.v4 network netmask, limitstr := ls } = false) := by
  refine ⟨?_, ?_, ?_, ?_, ?_, ?_, ?_⟩
  · intro l a; simpa [MatchIP] using matchSearch_eq_find (SockAddr.v4 a) l
  · intro l o; simpa [MatchIP] using matchSearch_eq_find (SockAddr.v6 o) l
  · intro l; rfl
  · intro a network netmask ls; simp [entryMatch]
  · intro o network netmask ls ho hm hn
    simpa [entryMatch] using
      ipv6Match_iff_zipWith o netmask network (by omega) (by omega)
  · intro a network netmask ls; rfl
  · intro o network netmask ls; rfl

/-- Witness for claim C9: one evaluated instance of the hypothetical
IPv6 conjunct, at a concrete address, mask and network of length 16. -/
theorem claim_C9_witness :
    ([(10:Nat), 0, 0, 0, 0, 0, 0, 0, 0, 0, 0, 0, 0, 0, 0, 7].length = 16) ∧
    (entryMatch (SockAddr.v6 [10, 0, 0, 0, 0, 0, 0, 0, 0, 0, 0, 0, 0, 0, 0, 7])
        { spec := NetSpec.v6 [10, 0, 0, 0, 0, 0, 0, 0, 0, 0, 0, 0, 0, 0, 0, 0]
                    [255, 255, 255, 255, 0, 0, 0, 0, 0, 0, 0, 0, 0, 0, 0, 0],
          limitstr := none } = true ↔
      List.zipWith (fun x y => x &&& y)
        [10, 0, 0, 0, 0, 0, 0, 0, 0, 0, 0, 0, 0, 0, 0, 7]
        [255, 255, 255, 255, 0, 0, 0, 0, 0, 0, 0, 0, 0, 0, 0, 0] =
        [10, 0, 0, 0, 0, 0, 0, 0, 0, 0, 0, 0, 0, 0, 0, 0]) :=
  ⟨by decide,
   claim_C9.2.2.2.2.1 [10, 0, 0, 0, 0, 0, 0, 0, 0, 0, 0, 0, 0, 0, 0, 7]
     [10, 0, 0, 0, 0, 0, 0, 0, 0, 0, 0, 0, 0, 0, 0, 0]
     [255, 255, 255, 255, 0, 0, 0, 0, 0, 0, 0, 0, 0, 0, 0, 0] none
     (by decide) (by decide) (by decide)⟩

theorem serverStep_count_nonneg (cfg : AdmissionConfig) (s : ServerState)
    (e : ServerEvent) (h : 0 ≤ s.clientcount) : 0 ≤ (serverStep cfg s e).clientcount := by
  cases e with
  | connect addr =>
      by_cases hc : admitDecision cfg s.clients s.clientcount addr = AdmitResult.admitted
      · simp only [serverStep, if_pos hc]; omega
      · simpa only [serverStep, if_neg hc] using h
  | reap idx =>
      by_cases hi : idx < s.clients.length
      · simp only [serverStep, if_pos hi]
        split <;> omega
      · simpa only [serverStep, if_neg hi] using h

/-- Claim C10: the global client count never becomes negative.  Every
admission increments it by one, every reap of a CLOSED client unit
decrements it only when it is strictly positive, so every state
reachable from the initial state by a sequence of admissions and reaps
has a nonnegative count. -/
theorem claim_C10 (cfg : AdmissionConfig) (events : List ServerEvent) :
    0 ≤ (runServer cfg events).clientcount := by
  have aux : ∀ (evs : List ServerEvent) (s : ServerState), 0 ≤ s.clientcount →
      0 ≤ (evs.foldl (serverStep cfg) s).clientcount := by
    intro evs
    induction evs with
    | nil => intro s h; simpa using h
    | cons e rest ih =>
        intro s h
        exact ih _ (serverStep_count_nonneg cfg s e h)
  exact aux events { clients := [], clientcount := 0 } (by norm_num)

theorem admitted_at_cap_write (cfg : AdmissionConfig) (clients : List SockAddr)
    (count : Int) (addr : SockAddr)
    (hcap : cfg.maxclients ≠ 0) (hge : (cfg.maxclients : Int) ≤ count)
    (h : admitDecision cfg clients count addr = AdmitResult.admitted) :
    onWriteList cfg addr = true := by
  unfold admitDecision at h
  split at h
  · exact absurd h (by simp)
  · split at h
    · exact absurd h (by simp)
    · split at h
      · exact absurd h (by simp)
      · split at h
        · split at h
          · exact (by assumption : onWriteList cfg addr = true ∧ _).1
          · exact absurd h (by simp)
        · omega

theorem admitted_count_bound (cfg : AdmissionConfig) (clients : List SockAddr)
    (count : Int) (addr : SockAddr) (hcap : cfg.maxclients ≠ 0)
    (h : admitDecision cfg clients count addr = AdmitResult.admitted) :
    count < (cfg.maxclients : Int) ∨ count ≤ (cfg.maxclients : Int) + 10 := by
  unfold admitDecision at h
  split at h
  · exact absurd h (by simp)
  · split at h
    · exact absurd h (by simp)
    · split at h
      · exact absurd h (by simp)
      · split at h
        · split at h
          · have hc : onWriteList cfg addr = true ∧
                count ≤ (cfg.maxclients : Int) + RESERVECONNECTIONS := by assumption
            right
            have := hc.2
            simp only [RESERVECONNECTIONS] at this
            exact this
          · exact absurd h (by simp)
        · left; omega

theorem count_le_reserve_aux (cfg : AdmissionConfig) (hcap : cfg.maxclients ≠ 0) :
    ∀ (evs : List ServerEvent) (s : ServerState),
      s.clientcount ≤ (cfg.maxclients : Int) + 11 →
      (evs.foldl (serverStep cfg) s).clientcount ≤ (cfg.maxclients : Int) + 11 := by
  intro evs
  induction evs with
  | nil => intro s h; simpa using h
  | cons e rest ih =>
      intro s h
      refine ih _ ?_
      cases e with
      | connect addr =>
          by_cases hc : admitDecision cfg s.clients s.clientcount addr = AdmitResult.admitted
          · simp only [serverStep, if_pos hc]
            rcases admitted_count_bound cfg s.clients s.clientcount addr hcap hc with hb | hb <;>
              omega
          · simpa only [serverStep, if_neg hc] using h
      | reap idx =>
          by_cases hi : idx < s.clients.length
          · simp only [serverStep, if_pos hi]
            split <;> omega
          · simpa only [serverStep, if_neg hi] using h

/-- Claim C1, amended: when the global cap is nonzero and already
reached, a connection is admitted only if its source matches the write
list; and the client count of every reachable state is at most
`maxClients + 11` (the admission check is `clientcount <= maxclients +
RESERVECONNECTIONS`, so admission can still happen at count
`maxClients + 10`, reaching `maxClients + 11`). -/
theorem claim_C1 (cfg : AdmissionConfig) :
    (∀ (clients : List SockAddr) (count : Int) (addr : SockAddr),
        cfg.maxclients ≠ 0 → (cfg.maxclients : Int) ≤ count →
        admitDecision cfg clients count addr = AdmitResult.admitted →
        onWriteList cfg addr = true) ∧
    (∀ events : List ServerEvent, cfg.maxclients ≠ 0 →
        (runServer cfg events).clientcount ≤ (cfg.maxclients : Int) + 11) := by
  constructor
  · intro clients count addr hcap hge h
    exact admitted_at_cap_write cfg clients count addr hcap hge h
  · intro events hcap
    exact count_le_reserve_aux cfg hcap events { clients := [], clientcount := 0 }
      (by simp; positivity)

/-- Concrete configuration used by the counterexample and witness of
claim C1: global cap 1, a write list matching every IPv4 source. -/
def cfgC1 : AdmissionConfig :=
  { matchips := [], rejectips := [],
    writeips := [{ spec := NetSpec.v4 0 0, limitstr := none }],
    maxclientsperip := 0, maxclients := 1 }

/-- Counterexample to claim C1 as stated: with `maxClients = 1` and a
write list matching every source, twelve successive connections are all
admitted, so the reachable client count 12 exceeds `maxClients + 10 =
11`. -/
theorem claim_C1_counterexample :
    (runServer cfgC1 (List.replicate 12 (ServerEvent.connect (SockAddr.v4 5)))).clientcount = 12 ∧
    ¬((runServer cfgC1 (List.replicate 12 (ServerEvent.connect (SockAddr.v4 5)))).clientcount ≤
        (cfgC1.maxclients : Int) + 10) := by
  constructor
  · decide
  · decide

/-- Witness for claim C1 (amended): at the concrete configuration
`cfgC1`, count 1 has reached the cap, the decision is `admitted`, the
source is on the write list, and the empty trace satisfies the bound. -/
theorem claim_C1_witness :
    cfgC1.maxclients ≠ 0 ∧ (cfgC1.maxclients : Int) ≤ 1 ∧
    admitDecision cfgC1 [] 1 (SockAddr.v4 5) = AdmitResult.admitted ∧
    onWriteList cfgC1 (SockAddr.v4 5) = true ∧
    (runServer cfgC1 []).clientcount ≤ (cfgC1.maxclients : Int) + 11 :=
  ⟨by decide, by decide, by decide,
   (claim_C1 cfgC1).1 [] 1 (SockAddr.v4 5) (by decide) (by decide) (by decide),
   (claim_C1 cfgC1).2 [] (by decide)⟩

/-- Claim C3: the listener evaluates admission policy in a fixed order.
The match list is checked strictly first (a non-empty match list with no
matching entry rejects, regardless of everything else); the reject list
strictly second; the caps only afterwards; the per-IP cap is not applied
to write-list sources; and a global-cap rejection implies the per-IP
check had already passed. -/
theorem claim_C3 (cfg : AdmissionConfig) (clients : List SockAddr)
    (count : Int) (addr : SockAddr) :
    (cfg.matchips ≠ [] → MatchIP cfg.matchips addr = none →
        admitDecision cfg clients count addr = AdmitResult.rejectedMatch) ∧
    ((cfg.matchips = [] ∨ (MatchIP cfg.matchips addr).isSome = true) →
        cfg.rejectips ≠ [] → (MatchIP cfg.rejectips addr).isSome = true →
        admitDecision cfg clients count addr = AdmitResult.rejectedReject) ∧
    (onWriteList cfg addr = true →
        admitDecision cfg clients count addr ≠ AdmitResult.rejectedIPLimit) ∧
    (admitDecision cfg clients count addr = AdmitResult.rejectedIPLimit →
        cfg.maxclientsperip ≠ 0 ∧ onWriteList cfg addr = false ∧
        cfg.maxclientsperip ≤ ClientIPCount clients addr) ∧
    (admitDecision cfg clients count addr = AdmitResult.rejectedMaxClients →
        ¬(cfg.maxclientsperip ≠ 0 ∧ onWriteList cfg addr = false ∧
          cfg.maxclientsperip ≤ ClientIPCount clients addr)) := by
  refine ⟨?_, ?_, ?_, ?_, ?_⟩
  · intro h1 h2
    simp [admitDecision, h1, h2]
  · intro h1 h2 h3
    have hnot : ¬(cfg.matchips ≠ [] ∧ MatchIP cfg.matchips addr = none) := by
      rcases h1 with h1 | h1
      · simp [h1]
      · intro hc
        rw [hc.2] at h1
        simp at h1
    simp [admitDecision, hnot, h2, h3]
  · intro hw
    unfold admitDecision
    split
    · simp
    · split
      · simp
      · split
        · rename_i hc
          rw [hw] at hc
          simp at hc
        · split
          · split <;> simp
          · simp
  · intro h
    unfold admitDecision at h
    split at h
    · exact absurd h (by simp)
    · split at h
      · exact absurd h (by simp)
      · split at h
        · assumption
        · split at h
          · split at h <;> exact absurd h (by simp)
          · exact absurd h (by simp)
  · intro h
    unfold admitDecision at h
    split at h
    · exact absurd h (by simp)
    · split at h
      · exact absurd h (by simp)
      · split at h
        · exact absurd h (by simp)
        · split at h
          · split at h
            · exact absurd h (by simp)
            · assumption
          · exact absurd h (by simp)

/-- Witness for claim C3: concrete instances of each conjunct at a
configuration with all four policy stages populated. -/
theorem claim_C3_witness :
    (admitDecision { matchips := [{ spec := NetSpec.v4 8 255, limitstr := none }],
                     rejectips := [], writeips := [], maxclientsperip := 0, maxclients := 0 }
        [] 0 (SockAddr.v4 5) = AdmitResult.rejectedMatch) ∧
    (admitDecision { matchips := [], rejectips := [{ spec := NetSpec.v4 5 255, limitstr := none }],
                     writeips := [], maxclientsperip := 0, maxclients := 0 }
        [] 0 (SockAddr.v4 5) = AdmitResult.rejectedReject) ∧
    (admitDecision { matchips := [], rejectips := [],
                     writeips := [{ spec := NetSpec.v4 0 0, limitstr := none }],
                     maxclientsperip := 1, maxclients := 0 }
        [SockAddr.v4 5] 1 (SockAddr.v4 5) ≠ AdmitResult.rejectedIPLimit) :=
  ⟨(claim_C3 _ [] 0 (SockAddr.v4 5)).1 (by decide) (by decide),
   (claim_C3 _ [] 0 (SockAddr.v4 5)).2.1 (Or.inl rfl) (by decide) (by decide),
   (claim_C3 _ [SockAddr.v4 5] 1 (SockAddr.v4 5)).2.2.1 (by decide)⟩

theorem ratTrunc_eq_floor_of_nonneg {q : ℚ} (h : 0 ≤ q) : ratTrunc q = Int.floor q := by
  unfold ratTrunc
  rw [Int.tdiv_eq_ediv (Rat.num_nonneg.mpr h) (Int.natCast_nonneg q.den)]
  exact Rat.floor_def.symm

theorem ratTrunc_bounds {q : ℚ} (h0 : 0 ≤ q) (h1 : q ≤ 100) :
    0 ≤ ratTrunc q ∧ ratTrunc q ≤ 100 := by
  rw [ratTrunc_eq_floor_of_nonneg h0]
  constructor
  · exact Int.le_floor.mpr (by exact_mod_cast h0)
  · have h2 : ((Int.floor q : Int) : ℚ) ≤ 100 := le_trans (Int.floor_le q) h1
    exact_mod_cast h2

theorem ratTrunc_intCast (z : Int) : ratTrunc ((z : Int) : ℚ) = z := by
  simp [ratTrunc, Rat.num_intCast, Rat.den_intCast, Int.tdiv_one]

theorem lag_frac_bounds (L R E : Int) (h1 : E ≤ R) (h2 : R ≤ L) (h3 : E < L) :
    0 ≤ (((L - R : Int) : ℚ) / ((L - E : Int) : ℚ)) * 100 ∧
    (((L - R : Int) : ℚ) / ((L - E : Int) : ℚ)) * 100 ≤ 100 := by
  have hy : (0 : ℚ) < ((L - E : Int) : ℚ) := by exact_mod_cast sub_pos.mpr h3
  have hx : (0 : ℚ) ≤ ((L - R : Int) : ℚ) := by exact_mod_cast sub_nonneg.mpr h2
  have hxy : ((L - R : Int) : ℚ) ≤ ((L - E : Int) : ℚ) := by
    exact_mod_cast sub_le_sub_left h1 L
  constructor
  · exact mul_nonneg (div_nonneg hx hy.le) (by norm_num)
  · calc (((L - R : Int) : ℚ) / ((L - E : Int) : ℚ)) * 100
        ≤ 1 * 100 := mul_le_mul_of_nonneg_right ((div_le_one hy).mpr hxy) (by norm_num)
      _ = 100 := one_mul 100

/-- Claim C2, amended: the percent lag lies between 0 and 100 inclusive
whenever the reader holds a valid position AND, additionally, the
unwrapped reader offset lies between the earliest offset and the
unwrapped latest offset with the earliest offset strictly below the
unwrapped latest offset (nonzero denominator).  Without these extra
conditions the C expression can produce values outside the range or
divide by zero. -/
theorem claim_C2 (rp : RingParamsM) (r : RingReader) (m : Nat)
    (hval : r.pktid ≤ m)
    (hlow : rp.earliestoffset ≤ unwrap r.pktoffset rp.earliestoffset rp.maxoffset)
    (hhigh : unwrap r.pktoffset rp.earliestoffset rp.maxoffset ≤
      unwrap rp.latestoffset rp.earliestoffset rp.maxoffset)
    (hden : rp.earliestoffset < unwrap rp.latestoffset rp.earliestoffset rp.maxoffset) :
    0 ≤ percentLag rp (some r) m ∧ percentLag rp (some r) m ≤ 100 := by
  have hb := lag_frac_bounds
    (unwrap rp.latestoffset rp.earliestoffset rp.maxoffset)
    (unwrap r.pktoffset rp.earliestoffset rp.maxoffset)
    rp.earliestoffset hlow hhigh hden
  simp only [percentLag, if_pos hval]
  exact ratTrunc_bounds hb.1 hb.2

/-- Counterexample to claim C2 as stated: with latest offset 10,
earliest offset 0, max offset 30 and a reader with a valid packet id at
offset 20, the computed percent lag is -100, outside [0, 100]. -/
theorem claim_C2_counterexample :
    percentLag { latestoffset := 10, earliestoffset := 0, maxoffset := 30 }
        (some { pktid := 0, pktoffset := 20 }) 100 < 0 := by
  have h : percentLag { latestoffset := 10, earliestoffset := 0, maxoffset := 30 }
      (some { pktid := 0, pktoffset := 20 }) 100 = ratTrunc ((-100 : Int) : ℚ) := by
    simp only [percentLag, unwrap]
    norm_num
  rw [h, ratTrunc_intCast]
  norm_num

/-- Witness for claim C2 (amended): a concrete in-range reader position
(latest 10, earliest 0, reader offset 5) gives a lag within [0, 100]. -/
theorem claim_C2_witness :
    (0 : Nat) ≤ 100 ∧
    (0 ≤ percentLag { latestoffset := 10, earliestoffset := 0, maxoffset := 30 }
        (some { pktid := 0, pktoffset := 5 }) 100 ∧
     percentLag { latestoffset := 10, earliestoffset := 0, maxoffset := 30 }
        (some { pktid := 0, pktoffset := 5 }) 100 ≤ 100) :=
  ⟨by decide,
   claim_C2 { latestoffset := 10, earliestoffset := 0, maxoffset := 30 }
     { pktid := 0, pktoffset := 5 } 100 (by decide) (by decide) (by decide) (by decide)⟩

/-- Claim C5: the per-client statistics update computes percent lag by
unwrapping coordinates (adding the ring's max offset to the latest or
reader offset exactly when that value is less than the earliest offset)
and then reporting `100 * (latest - reader) / (latest - earliest)` over
the unwrapped values; and it reports exactly 0 whenever the reader is
absent or its packet id is not a valid position. -/
theorem claim_C5 (rp : RingParamsM) (reader : Option RingReader) (m : Nat) :
    percentLag rp reader m = specPercentLag rp reader m ∧
    percentLag rp none m = 0 ∧
    (∀ r : RingReader, m < r.pktid → percentLag rp (some r) m = 0) := by
  refine ⟨?_, rfl, ?_⟩
  · cases reader with
    | none => rfl
    | some r =>
        by_cases hv : r.pktid ≤ m
        · simp only [percentLag, specPercentLag, if_pos hv, unwrap, specUnwrapped,
            if_neg (lt_irrefl rp.earliestoffset)]
          congr 1
          ring
        · simp [percentLag, specPercentLag, hv]
  · intro r h
    have hv : ¬(r.pktid ≤ m) := Nat.not_le.mpr h
    simp [percentLag, hv]

/-- Witness for claim C5: the invalid-position conjunct evaluated at a
reader whose packet id 5 exceeds the valid bound 0, together with an
instance of the refinement equality. -/
theorem claim_C5_witness :
    (0 : Nat) < 5 ∧
    percentLag { latestoffset := 10, earliestoffset := 0, maxoffset := 30 }
        (some { pktid := 5, pktoffset := 3 }) 0 = 0 ∧
    percentLag { latestoffset := 10, earliestoffset := 0, maxoffset := 30 }
        (some { pktid := 1, pktoffset := 3 }) 9 =
      specPercentLag { latestoffset := 10, earliestoffset := 0, maxoffset := 30 }
        (some { pktid := 1, pktoffset := 3 }) 9 :=
  ⟨by decide,
   (claim_C5 { latestoffset := 10, earliestoffset := 0, maxoffset := 30 }
       (some { pktid := 5, pktoffset := 3 }) 0).2.2 { pktid := 5, pktoffset := 3 } (by decide),
   (claim_C5 { latestoffset := 10, earliestoffset := 0, maxoffset := 30 }
       (some { pktid := 1, pktoffset := 3 }) 9).1⟩

theorem usub64_self (a : Nat) : usub64 a a = 0 := by
  simp [usub64, Nat.add_sub_cancel_left]

/-- Claim C6: if none of the tx/rx packet and byte counters changed
between two consecutive statistics updates, the rates computed by the
second update are exactly 0; on the first call (rate timestamp still
unset) the elapsed time used is exactly 1.0 second; and each call rolls
the current counters into the one-step history and stamps the rate
timestamp with the current time.  The hypotheses require active
counters (the C code only computes a direction's rates when its packet
counter is positive) and strictly increasing timestamps (in C a zero
elapsed time would divide 0.0 by 0.0). -/
theorem claim_C6 (s : RateState) (now1 now2 : Int)
    (htx : 0 < s.txpackets0) (hrx : 0 < s.rxpackets0) (hlt : now1 < now2) :
    (calcRates now2 (calcRates now1 s)).txpacketrate = 0 ∧
    (calcRates now2 (calcRates now1 s)).txbyterate = 0 ∧
    (calcRates now2 (calcRates now1 s)).rxpacketrate = 0 ∧
    (calcRates now2 (calcRates now1 s)).rxbyterate = 0 ∧
    (∀ n : Int, deltaSec n 0 = 1) ∧
    (calcRates now1 s).txpackets1 = s.txpackets0 ∧
    (calcRates now1 s).txbytes1 = s.txbytes0 ∧
    (calcRates now1 s).rxpackets1 = s.rxpackets0 ∧
    (calcRates now1 s).rxbytes1 = s.rxbytes0 ∧
    (calcRates now1 s).ratetime = now1 ∧
    (calcRates now2 (calcRates now1 s)).ratetime = now2 := by
  refine ⟨?_, ?_, ?_, ?_, ?_, ?_, ?_, ?_, ?_, ?_, ?_⟩ <;>
    simp [calcRates, deltaSec, usub64_self, htx, hrx]

/-- Concrete rate state used by the witness of claim C6. -/
def rateW : RateState :=
  { ratetime := 0, txpackets0 := 1, txpackets1 := 0, txbytes0 := 2, txbytes1 := 0,
    rxpackets0 := 3, rxpackets1 := 0, rxbytes0 := 4, rxbytes1 := 0,
    txpacketrate := 0, txbyterate := 0, rxpacketrate := 0, rxbyterate := 0 }

/-- Witness for claim C6: two updates at times 5 and 9 of a client with
unchanged counters give a zero transmission packet rate. -/
theorem claim_C6_witness :
    0 < rateW.txpackets0 ∧ 0 < rateW.rxpackets0 ∧ (5 : Int) < 9 ∧
    (calcRates 9 (calcRates 5 rateW)).txpacketrate = 0 :=
  ⟨by decide, by decide, by decide,
   (claim_C6 rateW 5 9 (by decide) (by decide) (by decide)).1⟩

theorem shutdownServerUnit_isListener (v : ServerUnit) :
    (shutdownServerUnit v).isListener = v.isListener := by
  unfold shutdownServerUnit
  split
  · split <;> rfl
  · split <;> rfl

theorem shutdownServerUnit_hasTd (v : ServerUnit) :
    (shutdownServerUnit v).hasTd = v.hasTd := by
  unfold shutdownServerUnit
  split
  · split <;> rfl
  · split <;> rfl

theorem shutdownServerUnit_socket (v : ServerUnit) (hl : v.isListener = true) :
    ¬(0 < (shutdownServerUnit v).socket) := by
  simp only [shutdownServerUnit, hl]
  by_cases hs : 0 < v.socket
  · simp [hs]
  · simp [hs]

theorem shutdownServerUnit_state (v : ServerUnit) (hl : v.isListener = false)
    (ht : v.hasTd = true) :
    (shutdownServerUnit v).tdState = TDState.close ∨
    (shutdownServerUnit v).tdState = TDState.closing ∨
    (shutdownServerUnit v).tdState = TDState.closed := by
  unfold shutdownServerUnit
  rw [if_neg (by simp [hl] : ¬(v.isListener = true))]
  split
  · left; rfl
  · rename_i hcond
    push_neg at hcond
    by_cases h1 : v.tdState = TDState.closing
    · right; left; exact h1
    · right; right; exact hcond ht h1

theorem shutdownClientUnit_state (c : ClientUnit) :
    (shutdownClientUnit c).tdState = TDState.close ∨
    (shutdownClientUnit c).tdState = TDState.closing ∨
    (shutdownClientUnit c).tdState = TDState.closed := by
  unfold shutdownClientUnit
  split
  · left; rfl
  · rename_i hcond
    push_neg at hcond
    by_cases h1 : c.tdState = TDState.closing
    · right; left; exact h1
    · right; right; exact hcond h1

theorem drainTicks_exit (n : Nat) : ∀ (s : SupervisorState), 1 < s.shutdownsig →
    100 ≤ s.shutdownsig + n → (drainTicks (n + 1) s).2 = true := by
  induction n with
  | zero =>
      intro s h1 h2
      have hne : ¬(s.shutdownsig = 1) := by omega
      have hge : 100 ≤ s.shutdownsig := by omega
      have hd : drainTick s = (s, true) := by
        simp [drainTick, hne, h1, hge]
      simp [drainTicks, hd]
  | succ k ih =>
      intro s h1 h2
      by_cases hge : 100 ≤ s.shutdownsig
      · have hne : ¬(s.shutdownsig = 1) := by omega
        have hd : drainTick s = (s, true) := by
          simp [drainTick, hne, h1, hge]
        simp [drainTicks, hd]
      · have hne : ¬(s.shutdownsig = 1) := by omega
        have hd : drainTick s = ({ s with shutdownsig := s.shutdownsig + 1 }, false) := by
          simp [drainTick, hne, h1, hge]
        have key : drainTicks (k + 1 + 1) s =
            match drainTick s with
            | (s', true) => (s', true)
            | (s', false) => drainTicks (k + 1) s' := rfl
        rw [key, hd]
        show (drainTicks (k + 1) { s with shutdownsig := s.shutdownsig + 1 }).2 = true
        refine ih { s with shutdownsig := s.shutdownsig + 1 } ?_ ?_
        · show 1 < s.shutdownsig + 1
          omega
        · show 100 ≤ s.shutdownsig + 1 + k
          omega

/-- Claim C7, amended: on the first supervisor tick after a shutdown
request, every listener's listening socket is closed, state CLOSE is set
on every non-listener server unit with an attached thread and on every
client unit not already CLOSING or CLOSED (listener units are stopped by
the socket close, not by a state change), the tick period is shortened
to 100 ms, and the per-tick counter forces the loop to exit within 99
further ticks even if units never reach CLOSED. -/
theorem claim_C7 (s : SupervisorState) (h : s.shutdownsig = 1) :
    (drainTick s).1.ticknsec = 100000000 ∧
    (∀ u ∈ (drainTick s).1.sunits, u.isListener = true → ¬(0 < u.socket)) ∧
    (∀ u ∈ (drainTick s).1.sunits, u.isListener = false → u.hasTd = true →
        u.tdState = TDState.close ∨ u.tdState = TDState.closing ∨
        u.tdState = TDState.closed) ∧
    (∀ c ∈ (drainTick s).1.cunits,
        c.tdState = TDState.close ∨ c.tdState = TDState.closing ∨
        c.tdState = TDState.closed) ∧
    (drainTicks 99 s).2 = true := by
  have hd : drainTick s =
      ({ shutdownsig := 3, ticknsec := 100000000,
         sunits := s.sunits.map shutdownServerUnit,
         cunits := s.cunits.map shutdownClientUnit }, false) := by
    simp [drainTick, h]
  refine ⟨?_, ?_, ?_, ?_, ?_⟩
  · rw [hd]
  · rw [hd]
    intro u hu hl
    obtain ⟨v, hv, rfl⟩ := List.mem_map.mp hu
    exact shutdownServerUnit_socket v (by rwa [shutdownServerUnit_isListener] at hl)
  · rw [hd]
    intro u hu hl ht
    obtain ⟨v, hv, rfl⟩ := List.mem_map.mp hu
    exact shutdownServerUnit_state v (by rwa [shutdownServerUnit_isListener] at hl)
      (by rwa [shutdownServerUnit_hasTd] at ht)
  · rw [hd]
    intro c hc
    obtain ⟨w, hw, rfl⟩ := List.mem_map.mp hc
    exact shutdownClientUnit_state w
  · have key : drainTicks 99 s =
        match drainTick s with
        | (s', true) => (s', true)
        | (s', false) => drainTicks 98 s' := rfl
    rw [key, hd]
    show (drainTicks 98 (SupervisorState.mk 3 100000000
      (s.sunits.map shutdownServerUnit) (s.cunits.map shutdownClientUnit))).2 = true
    exact drainTicks_exit 97 _ (by show 1 < 3; omega) (by show 100 ≤ 3 + 97; omega)

/-- Counterexample to claim C7 as stated: a listener unit in state
ACTIVE has its socket closed on the shutdown tick but its state is NOT
set to CLOSE (the code only closes listener sockets; the CLOSE state is
set on non-listener server units). -/
theorem claim_C7_counterexample :
    ((drainTick (SupervisorState.mk 1 250000000
        [ServerUnit.mk true 5 true TDState.active] [])).1.sunits =
      [ServerUnit.mk true (-1) true TDState.active]) ∧
    TDState.active ≠ TDState.close := by
  exact ⟨by decide, by decide⟩

/-- Concrete supervisor state used by the witness of claim C7. -/
def supW : SupervisorState :=
  { shutdownsig := 1, ticknsec := 250000000,
    sunits := [{ isListener := false, socket := -1, hasTd := true,
                 tdState := TDState.active }],
    cunits := [{ tdState := TDState.active, lastxchange := 0 }] }

/-- Witness for claim C7 (amended): at a concrete state with a freshly
requested shutdown, the tick period is shortened and the safety valve
fires within the tick budget. -/
theorem claim_C7_witness :
    supW.shutdownsig = 1 ∧ (drainTick supW).1.ticknsec = 100000000 ∧
    (drainTicks 99 supW).2 = true :=
  ⟨rfl, (claim_C7 supW rfl).1, (claim_C7 supW rfl).2.2.2.2⟩

/-- Claim C8: on every supervisor tick with a nonzero configured client
timeout, a live client whose time since last exchange exceeds the
timeout and whose state is not already CLOSE, CLOSING or CLOSED is set
to CLOSE; a client whose state is already one of those is left alone;
a client within the timeout window is left unchanged; and the check is
applied to every non-CLOSED client of the tick's client pass. -/
theorem claim_C8 (clienttimeout : Nat) (hpcurtime : Int) (c : ClientUnit)
    (hto : clienttimeout ≠ 0) :
    ((clienttimeout : Int) * NSTMODULUS < hpcurtime - c.lastxchange →
        c.tdState ≠ TDState.close → c.tdState ≠ TDState.closing →
        c.tdState ≠ TDState.closed →
        (idleCheck clienttimeout hpcurtime c).tdState = TDState.close) ∧
    (¬((clienttimeout : Int) * NSTMODULUS < hpcurtime - c.lastxchange) →
        idleCheck clienttimeout hpcurtime c = c) ∧
    ((c.tdState = TDState.close ∨ c.tdState = TDState.closing ∨
        c.tdState = TDState.closed) →
        idleCheck clienttimeout hpcurtime c = c) ∧
    (∀ cs : List ClientUnit, c ∈ cs → c.tdState ≠ TDState.closed →
        idleCheck clienttimeout hpcurtime c ∈
          supervisorIdlePass clienttimeout hpcurtime cs) := by
  refine ⟨?_, ?_, ?_, ?_⟩
  · intro hexp h1 h2 h3
    simp [idleCheck, hto, hexp, h1, h2, h3]
  · intro hexp
    simp [idleCheck, hexp]
  · intro hst
    unfold idleCheck
    split
    · rw [if_neg]
      push_neg
      rcases hst with h | h | h <;> intro <;> simp_all
    · rfl
  · intro cs hc hne
    unfold supervisorIdlePass
    refine List.mem_map_of_mem _ (List.mem_filter.mpr ⟨hc, ?_⟩)
    simp [hne]

/-- Witness for claim C8: a client idle for 4 seconds against a
2-second timeout is set to CLOSE; one idle for 1 second is untouched. -/
theorem claim_C8_witness :
    (2 : Nat) ≠ 0 ∧
    (idleCheck 2 4000000000 (ClientUnit.mk TDState.active 0)).tdState = TDState.close ∧
    idleCheck 2 1000000000 (ClientUnit.mk TDState.active 0) =
      ClientUnit.mk TDState.active 0 :=
  ⟨by decide,
   (claim_C8 2 4000000000 (ClientUnit.mk TDState.active 0) (by decide)).1
     (by decide) (by decide) (by decide) (by decide),
   (claim_C8 2 1000000000 (ClientUnit.mk TDState.active 0) (by decide)).2.1 (by decide)⟩

/-- Claim C4, amended: a first init result of -2, or any nonzero result
with auto-recovery off, fails startup with a nonzero exit; a result of
-1 (with autoRecovery=1) renames the files to .corrupt siblings and
re-initialises, a positive version V (with autoRecovery=1) renames to
.versionV siblings and re-initialises, and autoRecovery=2 deletes and
re-initialises; the version converter is invoked only when the
(uint16-truncated) version is exactly 1, replaying from the backup and
deleting the backup files when the loader succeeds; a positive version
whose truncation is neither 0 nor 1 is fatal after re-initialisation;
and failure of the second initialisation is fatal. -/
theorem claim_C4 (a : Nat) (init1 init2 loadv1 : Int) :
    (init1 = -2 → ringStartup a init1 init2 loadv1 =
        { exitCode := some 1, actions := [] }) ∧
    (a = 0 → init1 ≠ 0 → ringStartup a init1 init2 loadv1 =
        { exitCode := some 1, actions := [] }) ∧
    (a = 1 → init1 = -1 → init2 = 0 → ringStartup a init1 init2 loadv1 =
        { exitCode := none,
          actions := [StartupAction.renameToCorrupt, StartupAction.reinit] }) ∧
    (a = 1 → init1 = -1 → init2 ≠ 0 → ringStartup a init1 init2 loadv1 =
        { exitCode := some 1,
          actions := [StartupAction.renameToCorrupt, StartupAction.reinit] }) ∧
    (a = 2 → init1 ≠ 0 → init1 ≠ -2 → init2 = 0 → ringStartup a init1 init2 loadv1 =
        { exitCode := none,
          actions := [StartupAction.deleteFiles, StartupAction.reinit] }) ∧
    (a = 2 → init1 ≠ 0 → init1 ≠ -2 → init2 ≠ 0 → ringStartup a init1 init2 loadv1 =
        { exitCode := some 1,
          actions := [StartupAction.deleteFiles, StartupAction.reinit] }) ∧
    (a = 1 → init1 = 1 → init2 = 0 → 0 ≤ loadv1 → ringStartup a init1 init2 loadv1 =
        { exitCode := none,
          actions := [StartupAction.renameToVersion 1, StartupAction.reinit,
                      StartupAction.convertV1, StartupAction.deleteBackups] }) ∧
    (a = 1 → init1 = 1 → init2 = 0 → loadv1 < 0 → ringStartup a init1 init2 loadv1 =
        { exitCode := none,
          actions := [StartupAction.renameToVersion 1, StartupAction.reinit,
                      StartupAction.convertV1] }) ∧
    (a = 1 → init1 = 1 → init2 ≠ 0 → ringStartup a init1 init2 loadv1 =
        { exitCode := some 1,
          actions := [StartupAction.renameToVersion 1, StartupAction.reinit] }) ∧
    (a = 1 → 0 < init1 → init1 < 65536 → init1 ≠ 1 → init2 = 0 →
        ringStartup a init1 init2 loadv1 =
        { exitCode := some 1,
          actions := [StartupAction.renameToVersion init1.toNat, StartupAction.reinit] }) := by
  refine ⟨?_, ?_, ?_, ?_, ?_, ?_, ?_, ?_, ?_, ?_⟩
  · intro h1
    subst h1
    simp [ringStartup]
  · intro ha h1
    subst ha
    simp [ringStartup, h1]
  · intro ha h1 h2
    subst ha; subst h1; subst h2
    simp [ringStartup]
  · intro ha h1 h2
    subst ha; subst h1
    simp [ringStartup, h2]
  · intro ha h1 h2 h3
    subst ha; subst h3
    simp [ringStartup, h1, h2]
  · intro ha h1 h2 h3
    subst ha
    simp [ringStartup, h1, h2, h3]
  · intro ha h1 h2 h3
    subst ha; subst h1; subst h2
    simp [ringStartup, h3]
  · intro ha h1 h2 h3
    subst ha; subst h1; subst h2
    simp [ringStartup, not_le.mpr h3]
  · intro ha h1 h2
    subst ha; subst h1
    simp [ringStartup, h2]
  · intro ha h1 h2 h3 h4
    subst ha; subst h4
    have hne0 : ¬(init1 = 0) := by omega
    have hnem1 : ¬(init1 = -1) := by omega
    have hnem2 : ¬(init1 = -2) := by omega
    have hmod : init1.toNat % 65536 = init1.toNat := Nat.mod_eq_of_lt (by omega)
    have hpos : 0 < init1.toNat := by omega
    have hne1 : ¬(init1.toNat = 1) := by omega
    simp [ringStartup, hne0, hnem1, hnem2, h1, hmod, hpos, hne1]

/-- Counterexample to claim C4 as stated: a positive version 2 with
autoRecovery=1 and a successful second init does NOT invoke the version
converter and makes startup fail with exit 1, instead of replaying
packets and deleting the backups. -/
theorem claim_C4_counterexample :
    (ringStartup 1 2 0 0).exitCode = some 1 ∧
    ¬(StartupAction.convertV1 ∈ (ringStartup 1 2 0 0).actions) ∧
    ¬(StartupAction.deleteBackups ∈ (ringStartup 1 2 0 0).actions) := by
  exact ⟨by decide, by decide, by decide⟩

/-- Witness for claim C4 (amended): concrete instances of the fatal
case (-2), the corrupt-recovery case and the version-1 conversion case. -/
theorem claim_C4_witness :
    ringStartup 3 (-2) 0 0 = { exitCode := some 1, actions := [] } ∧
    ringStartup 1 (-1) 0 0 =
      { exitCode := none,
        actions := [StartupAction.renameToCorrupt, StartupAction.reinit] } ∧
    ringStartup 1 1 0 5 =
      { exitCode := none,
        actions := [StartupAction.renameToVersion 1, StartupAction.reinit,
                    StartupAction.convertV1, StartupAction.deleteBackups] } :=
  ⟨(claim_C4 3 (-2) 0 0).1 rfl,
   (claim_C4 1 (-1) 0 0).2.2.1 rfl rfl rfl,
   (claim_C4 1 1 0 5).2.2.2.2.2.2.1 rfl rfl rfl (by decide)⟩
